import Mathlib

/-!
Verification development for the interview-session lifecycle frontend.

The definitions below are shallow embeddings of the TypeScript source:
  * `src/unnamed/part_003` — the backend-forwarding helpers
    (`forwardToBackend`, `parseJsonResponse`).
  * `src/frontend/src/app/api/interview-sessions/route.ts`,
    `src/frontend/src/app/api/interview-sessions/[sessionId]/start/route.ts`,
    `src/frontend/src/app/api/interview-analysis/[conversationId]/route.ts`
    — the three proxy route handlers.
  * `src/unnamed/part_004` — the analysis page (`normalizeResponse`,
    `fetchAnalysis` effect, `renderContent`).
  * `src/frontend/src/app/company/[slug]/page.tsx` — the status polling
    client (`fetchSessionStatus`, the polling `useEffect`,
    `SESSION_STATUS_LABELS`, `statusDescription`).

JSON objects are modelled as association lists of string keys and `JVal`
values with first-match lookup; JavaScript object spread `{...prev, ...data}`
is modelled by placing `data` entries in front of `prev` entries, so that
fields of `data` win on lookup while the remaining fields of `prev` are kept.
-/

/-- A JSON-ish runtime value: string, number, boolean, or null.  Enough to
model the session/analysis payload fields the source manipulates. -/
inductive JVal where
  | str (s : String)
  | num (n : Int)
  | boolean (b : Bool)
  | null
deriving DecidableEq, Repr

/-- A JSON object: an association list of fields with first-match lookup. -/
abbrev Obj := List (String × JVal)

/-- Property lookup on a JSON object: first entry whose key matches. -/
def lookupKey {α : Type} (l : List (String × α)) (k : String) : Option α :=
  match l with
  | [] => none
  | (k', v) :: rest => if k' = k then some v else lookupKey rest k

/-- JavaScript object spread `{...prev, ...data}`: fields of `data` overwrite
the corresponding fields of `prev`; with first-match `lookupKey`, putting the
`data` entries first realises exactly that. -/
def spreadObj (prev data : Obj) : Obj := data ++ prev

theorem lookupKey_append {α : Type} (l₁ l₂ : List (String × α)) (k : String) :
    lookupKey (l₁ ++ l₂) k = ((lookupKey l₁ k).orElse fun _ => lookupKey l₂ k) := by
  induction l₁ with
  | nil => simp [lookupKey]
  | cons p rest ih =>
    obtain ⟨k', v⟩ := p
    by_cases h : k' = k <;> simp [lookupKey, h, ih]

/-! ## Backend-forwarding boundary (`src/unnamed/part_003` and the three
route handlers). -/

/-- Outcome of the `fetch` to the upstream backend inside `forwardToBackend`:
either the fetch itself rejects (backend unreachable) or a response arrives
with an HTTP status and a body that may or may not be valid JSON
(`none` models a body that `response.json()` fails to parse). -/
inductive UpstreamResult where
  | unreachable (errMsg : String)
  | response (status : Nat) (body : Option Obj)
deriving DecidableEq, Repr

/-- `parseJsonResponse` from `src/unnamed/part_003`: `response.json()` on
success returns the parsed object; the `catch` fabricates
`{ message: "Unexpected backend response" }`. -/
def parseJsonResponse (body : Option Obj) : Obj :=
  match body with
  | some j => j
  | none => [("message", JVal.str "Unexpected backend response")]

/-- `forwardToBackend` from `src/unnamed/part_003`: awaits the upstream
fetch (an unreachable backend makes the promise reject, modelled by
`Except.error`) and pairs the upstream HTTP status with the parsed payload. -/
def forwardToBackend (r : UpstreamResult) : Except String (Nat × Obj) :=
  match r with
  | .unreachable m => .error m
  | .response status body => .ok (status, parseJsonResponse body)

/-- The fallback envelope each route handler fabricates in its `catch`
branch when `forwardToBackend` rejects. -/
def unreachableEnvelope (m : String) : Obj :=
  [("message", JVal.str "Unable to reach backend service"),
   ("details", JVal.str m)]

/-- `POST` of `src/frontend/src/app/api/interview-sessions/route.ts`.
`reqBody = none` models a request body that `request.json()` fails to
parse (the 400 guard); otherwise the request is forwarded and the upstream
status/payload relayed, with a 502 envelope when the backend is
unreachable. -/
def interviewSessionsPOST (reqBody : Option Obj) (r : UpstreamResult) : Nat × Obj :=
  match reqBody with
  | none => (400, [("message", JVal.str "Invalid JSON payload")])
  | some _ =>
    match forwardToBackend r with
    | .ok (st, data) => (st, data)
    | .error m => (502, unreachableEnvelope m)

/-- `POST` of
`src/frontend/src/app/api/interview-sessions/[sessionId]/start/route.ts`.
An empty `sessionId` is falsy in the source's `if (!sessionId)` guard. -/
def startPOST (sessionId : String) (r : UpstreamResult) : Nat × Obj :=
  if sessionId = "" then (400, [("message", JVal.str "Session ID is required")])
  else
    match forwardToBackend r with
    | .ok (st, payload) => (st, payload)
    | .error m => (502, unreachableEnvelope m)

/-- `GET` of
`src/frontend/src/app/api/interview-analysis/[conversationId]/route.ts`.
The route param is optional; `none` or the empty string is falsy in the
source's `if (!conversationId)` guard. -/
def analysisGET (conversationId : Option String) (r : UpstreamResult) : Nat × Obj :=
  if conversationId = none ∨ conversationId = some "" then
    (400, [("message", JVal.str "conversationId is required")])
  else
    match forwardToBackend r with
    | .ok (st, payload) => (st, payload)
    | .error m => (502, unreachableEnvelope m)

/-- Characterisation of the forwarding behaviour the three handlers share
(used to state the amended claim C2): a reachable upstream's status is
relayed as-is — also when its body is malformed JSON — and only the
unreachable case is mapped to 502. -/
def relayResult (r : UpstreamResult) : Nat × Obj :=
  match r with
  | .unreachable m => (502, unreachableEnvelope m)
  | .response st body => (st, parseJsonResponse body)

/-! ## Analysis Retrieval Reconciler (`src/unnamed/part_004`) -/

/-- `CoachingFeedback` from `src/unnamed/part_004`. -/
structure CoachingFeedback where
  strengths : List String
  areas_for_improvement : List String
  next_practice_focus : List String
deriving DecidableEq, Repr, BEq

/-- `KeyEvent` from `src/unnamed/part_004`. -/
structure KeyEvent where
  timestamp : Option String
  speaker : String
  message : String
deriving DecidableEq, Repr, BEq

/-- The `case_summary` object inside `Analysis`. -/
structure CaseSummary where
  case_type : String
  overall_summary : String
  user_confidence : String
deriving DecidableEq, Repr, BEq

/-- The `sentiment` object inside `Analysis`. -/
structure Sentiment where
  user : String
  assistant : String
deriving DecidableEq, Repr, BEq

/-- The optional `engagement_summary` object inside `Analysis`. -/
structure EngagementSummary where
  summary : Option String
deriving DecidableEq, Repr, BEq

/-- `Analysis` from `src/unnamed/part_004`. -/
structure Analysis where
  case_summary : CaseSummary
  key_events : List KeyEvent
  coaching_feedback : CoachingFeedback
  action_items : List String
  sentiment : Sentiment
  engagement_summary : Option EngagementSummary
  source_transcript : Option String
deriving DecidableEq, Repr, BEq

/-- `BackendAnalysisResponse` from `src/unnamed/part_004`: the snake-cased
backend payload shape.  `analysis = none` models the JSON `null`. -/
structure BackendAnalysisResponse where
  conversation_id : String
  status : String
  updated_at : String
  analysis : Option Analysis
deriving DecidableEq, Repr, BEq

/-- `AnalysisStatus` from `src/unnamed/part_004`: the camel-cased client
view. -/
structure AnalysisStatus where
  conversationId : String
  status : String
  updatedAt : String
  analysis : Option Analysis
deriving DecidableEq, Repr, BEq

/-- `normalizeResponse` from `src/unnamed/part_004`: field-by-field
renaming; `data.analysis ?? null` is the identity on an optional value. -/
def normalizeResponse (data : BackendAnalysisResponse) : AnalysisStatus :=
  { conversationId := data.conversation_id
    status := data.status
    updatedAt := data.updated_at
    analysis := data.analysis }

/-- The fixed retry delay of the reconciler (`setTimeout(..., 5000)`). -/
def RETRY_DELAY_MS : Nat := 5000

/-- React state plus the timer system shared by successive mounts of
`AnalysisContent`: `status`/`error`/`isLoading` are the `useState` cells,
`active` is the list of scheduled-and-not-yet-fired-or-cleared timers as
`(timer id, fire time)` pairs, `nextId` generates fresh timer ids, and
`now` is the current time in milliseconds. -/
structure Shared where
  status : Option AnalysisStatus
  error : Option String
  isLoading : Bool
  active : List (Nat × Nat)
  nextId : Nat
  now : Nat
deriving DecidableEq, Repr

/-- The per-effect-run closure variables of the `useEffect` in
`AnalysisContent`: `let isCancelled = false; let timeout = null`. -/
structure MountVars where
  isCancelled : Bool
  timeoutVar : Option Nat
deriving DecidableEq, Repr

/-- Outcome of one `fetch` inside `fetchAnalysis`: the promise rejects
(network error with the `Error` message), or a response arrives with its
`ok` flag and a body that parsed to a payload or not (`response.json()
.catch(() => null)`).  The `detail`/`message` extraction from error
envelopes is elided: failure messages below use the source's default
"Unable to load analysis." (no claim depends on the message text). -/
inductive AnalysisFetchResult where
  | networkError (msg : String)
  | response (ok : Bool) (payload : Option BackendAnalysisResponse)
deriving DecidableEq, Repr

/-- The error message `setError` receives on each failure path of
`fetchAnalysis`. -/
def errMsgOf : AnalysisFetchResult → String
  | .networkError m => m
  | .response _ _ => "Unable to load analysis."

/-- Whether a fetch outcome takes the `throw`/`catch` path of
`fetchAnalysis` (`!response.ok || !payload`, or a rejected fetch). -/
def isFailureResult : AnalysisFetchResult → Bool
  | .networkError _ => true
  | .response ok payload => !ok || payload.isNone

/-- The `catch` branch of `fetchAnalysis` followed by `finally`:
`if (!isCancelled) setError(msg)`, and
`if (!isCancelled && withSpinner) setIsLoading(false)`. -/
def analysisFailure (sh : Shared) (mv : MountVars) (withSpinner : Bool)
    (m : String) : Shared × MountVars :=
  if mv.isCancelled then (sh, mv)
  else
    let sh1 := { sh with error := some m }
    ((if withSpinner then { sh1 with isLoading := false } else sh1), mv)

/-- `if (timeout) { clearTimeout(timeout); timeout = null; }` -/
def clearRecorded (sh : Shared) (mv : MountVars) : Shared × MountVars :=
  match mv.timeoutVar with
  | some id =>
      ({ sh with active := sh.active.filter (fun q => q.1 ≠ id) },
       { mv with timeoutVar := none })
  | none => (sh, mv)

/-- `timeout = setTimeout(() => fetchAnalysis(false), 5000)`. -/
def scheduleRetry (sh : Shared) (mv : MountVars) : Shared × MountVars :=
  ({ sh with
      active := sh.active ++ [(sh.nextId, sh.now + RETRY_DELAY_MS)]
      nextId := sh.nextId + 1 },
   { mv with timeoutVar := some sh.nextId })

/-- The success continuation of `fetchAnalysis` after the `throw` guard:
`if (isCancelled) return`, then `setStatus(normalized); setError(null)`,
clear any recorded timer, schedule a retry iff the normalized status is
`pending`, then `finally`. -/
def analysisSuccess (sh : Shared) (mv : MountVars) (withSpinner : Bool)
    (p : BackendAnalysisResponse) : Shared × MountVars :=
  if mv.isCancelled then (sh, mv)
  else
    let n := normalizeResponse p
    let c1 := clearRecorded { sh with status := some n, error := none } mv
    let c2 := if n.status = "pending" then scheduleRetry c1.1 c1.2 else c1
    ((if withSpinner then { c2.1 with isLoading := false } else c2.1), c2.2)

/-- Completion of one invocation of `fetchAnalysis` with outcome `r`:
the `!response.ok || !payload` guard throws into the `catch` branch,
otherwise the success continuation runs. -/
def fetchAnalysisComplete (sh : Shared) (mv : MountVars) (withSpinner : Bool)
    (r : AnalysisFetchResult) : Shared × MountVars :=
  match r with
  | .networkError m => analysisFailure sh mv withSpinner m
  | .response ok payload =>
    match payload with
    | none => analysisFailure sh mv withSpinner "Unable to load analysis."
    | some p =>
      if ok then analysisSuccess sh mv withSpinner p
      else analysisFailure sh mv withSpinner "Unable to load analysis."

/-- The body of the `useEffect` for a present `conversationId`:
`setStatus(null); setError(null)`, fresh closure variables, and
`fetchAnalysis(true)` starts by `setIsLoading(true)`. -/
def effectInit (sh : Shared) : Shared × MountVars :=
  ({ sh with status := none, error := none, isLoading := true },
   { isCancelled := false, timeoutVar := none })

/-- The cleanup returned by the `useEffect`:
`isCancelled = true; if (timeout) clearTimeout(timeout)`. -/
def cleanupEffect (sh : Shared) (mv : MountVars) : Shared × MountVars :=
  (match mv.timeoutVar with
   | some id => { sh with active := sh.active.filter (fun q => q.1 ≠ id) }
   | none => sh,
   { mv with isCancelled := true })

/-- Events of one mounted reconciler: the immediate fetch completes
(`fetchAnalysis(true)`), or a scheduled retry timer fires — which removes
it from the active timers and runs `fetchAnalysis(false)` to completion
(the run is single-threaded, so the fire and the completion of its fetch
are one step). -/
inductive AEvent where
  | initialComplete (r : AnalysisFetchResult)
  | timerFire (r : AnalysisFetchResult)
deriving Repr

/-- One step of the mounted reconciler. -/
def stepA (s : Shared × MountVars) (e : AEvent) : Shared × MountVars :=
  match e with
  | .initialComplete r => fetchAnalysisComplete s.1 s.2 true r
  | .timerFire r =>
    match s.1.active with
    | [] => s
    | (id, t) :: _ =>
      let sh := { s.1 with active := s.1.active.filter (fun q => q.1 ≠ id), now := t }
      fetchAnalysisComplete sh s.2 false r

/-- The distinct cards `renderContent` in `src/unnamed/part_004` can
return. -/
inductive RenderView where
  | noConversation
  | loader
  | errorCard (msg : String)
  | empty
  | pendingCard (conversationId : String)
  | noData
  | report (a : Analysis)
deriving DecidableEq, Repr, BEq

/-- `renderContent` from `src/unnamed/part_004`, in source order: missing
`conversationId`; the loader (`showLoader = isLoading && !status`); the
error card; `!status → null`; the pending card; the ready branch with the
no-payload fallback. -/
def renderContent (conversationId : Option String) (sh : Shared) : RenderView :=
  match conversationId with
  | none => .noConversation
  | some _ =>
    if sh.isLoading ∧ sh.status = none then .loader
    else
      match sh.error with
      | some m => .errorCard m
      | none =>
        match sh.status with
        | none => .empty
        | some st =>
          if st.status = "pending" then .pendingCard st.conversationId
          else if st.status = "ready" then
            match st.analysis with
            | none => .noData
            | some a => .report a
          else .noData

/-- Collapse consecutive duplicates of a render trace (two successive
identical views are one surfaced state to the consumer). -/
def dedupConsec : List RenderView → List RenderView
  | [] => []
  | [v] => [v]
  | v :: w :: rest =>
    if v == w then dedupConsec (w :: rest) else v :: dedupConsec (w :: rest)

/-- The timer discipline of one mount: every active timer is the one
recorded in the closure's `timeout` variable, at most one timer is
outstanding, and after cancellation none is. -/
def InvA (sh : Shared) (mv : MountVars) : Prop :=
  (∀ q ∈ sh.active, mv.timeoutVar = some q.1) ∧
  sh.active.length ≤ 1 ∧
  (mv.isCancelled = true → sh.active = [])

/-- A concrete analysis report, used to run the monotonicity scenario of
claim C9 on explicit data. -/
def sampleAnalysis : Analysis :=
  { case_summary :=
      { case_type := "profitability", overall_summary := "solid run",
        user_confidence := "high" }
    key_events := []
    coaching_feedback :=
      { strengths := [], areas_for_improvement := [], next_practice_focus := [] }
    action_items := []
    sentiment := { user := "positive", assistant := "calm" }
    engagement_summary := none
    source_transcript := none }

/-- A pending backend payload for conversation `c9`. -/
def pendingPayload (ts : String) : BackendAnalysisResponse :=
  { conversation_id := "c9", status := "pending", updated_at := ts,
    analysis := none }

/-- The ready backend payload for conversation `c9`. -/
def readyPayload : BackendAnalysisResponse :=
  { conversation_id := "c9", status := "ready", updated_at := "t3",
    analysis := some sampleAnalysis }

/-! ## Status Polling Client (`src/frontend/src/app/company/[slug]/page.tsx`) -/

/-- `SESSION_STATUS_LABELS` from the company page. -/
def SESSION_STATUS_LABELS : List (String × String) :=
  [("room_created", "Room ready — join the link below when you\x27re set."),
   ("bot_starting", "Summoning the AI interviewer..."),
   ("bot_running", "AI interviewer is live in the room."),
   ("bot_stopping", "Wrapping up the session..."),
   ("bot_completed", "Session completed."),
   ("bot_error", "Something went wrong starting the AI. Try again.")]

/-- `statusDescription` for a present session:
`SESSION_STATUS_LABELS[session.status] ?? "Updating session..."`. -/
def statusDescription (status : String) : String :=
  (lookupKey SESSION_STATUS_LABELS status).getD "Updating session..."

/-- `pollableStatuses` from the polling `useEffect`. -/
def pollableStatuses : List String := ["bot_starting", "bot_running", "bot_stopping"]

/-- The fixed polling interval (`setInterval(poll, 4000)`). -/
def POLL_INTERVAL_MS : Nat := 4000

/-- The polling client's state: current time, the `session` React state
(a JSON object or `null`), the active interval's next fire time
(`none` when no interval is scheduled), and the times at which status
fetches were issued (in order). -/
structure PollClient where
  now : Nat
  session : Option Obj
  nextFire : Option Nat
  fetchLog : List Nat
deriving DecidableEq, Repr

/-- `session?.[k]` — field access through the optional session. -/
def sessionField (s : Option Obj) (k : String) : Option JVal :=
  match s with
  | none => none
  | some o => lookupKey o k

/-- The dependency array of the polling `useEffect` is
`[session?.sessionId, session?.status, fetchSessionStatus]`, and the
`useCallback` identity of `fetchSessionStatus` changes only with
`session?.sessionId`; the effect therefore re-runs exactly when the
session id or the status changed. -/
def depsChanged (a b : Option Obj) : Prop :=
  sessionField a "sessionId" ≠ sessionField b "sessionId" ∨
    sessionField a "status" ≠ sessionField b "status"

instance (a b : Option Obj) : Decidable (depsChanged a b) := by
  unfold depsChanged; infer_instance

/-- One run of the polling `useEffect` (after cleanup of the previous run
cleared any interval): `if (!session?.sessionId) return`, then
`if (!pollableStatuses.includes(session.status)) return`, otherwise
`poll()` issues an immediate fetch and `setInterval(poll, 4000)` schedules
the next one. -/
def runPollEffect (c : PollClient) : PollClient :=
  match c.session with
  | none => { c with nextFire := none }
  | some o =>
    match lookupKey o "sessionId" with
    | some (.str sid) =>
      if sid = "" then { c with nextFire := none }
      else
        if (match lookupKey o "status" with
            | some (.str st) => pollableStatuses.contains st
            | _ => false) then
          { c with fetchLog := c.fetchLog ++ [c.now],
                   nextFire := some (c.now + POLL_INTERVAL_MS) }
        else { c with nextFire := none }
    | _ => { c with nextFire := none }

/-- Outcome of one status fetch in `fetchSessionStatus`: the fetch
rejects, or a response arrives with its `ok` flag and a body that
`parseJsonSafe` parsed (`some`) or not (`none`). -/
inductive FetchResult where
  | networkError (msg : String)
  | response (ok : Bool) (body : Option Obj)
deriving DecidableEq, Repr

/-- Whether the outcome takes one of the three bail-out paths of
`fetchSessionStatus` (`catch`, `!response.ok`, `!data`). -/
def isFailedFetch : FetchResult → Bool
  | .networkError _ => true
  | .response ok body => !ok || body.isNone

/-- The state update `fetchSessionStatus` performs on completion: failures
are swallowed (`catch` logs; `!response.ok` and `!data` return early) and
a parsed body is merged by
`setSession((prev) => (prev ? { ...prev, ...data } : data))`. -/
def fetchSessionStatusUpdate (prev : Option Obj) (r : FetchResult) : Option Obj :=
  match r with
  | .networkError _ => prev
  | .response ok body =>
    if ok then
      match body with
      | none => prev
      | some data =>
        some (match prev with
              | some p => spreadObj p data
              | none => data)
    else prev

/-- Events of the polling client: the component mounts (the effect runs),
the consumer stores a session snapshot (create/start handlers call
`setSession`, and the effect re-runs when its deps changed), the interval
fires (a fetch is issued), or an issued fetch completes with outcome `r`
(the merge runs, and the effect re-runs when its deps changed). -/
inductive PEvent where
  | mount
  | setSession (s : Option Obj)
  | tick
  | fetchComplete (r : FetchResult)
deriving Repr

/-- One step of the polling client. -/
def stepP (c : PollClient) : PEvent → PollClient
  | .mount => runPollEffect c
  | .setSession s =>
    let c' := { c with session := s }
    if depsChanged c.session s then runPollEffect c' else c'
  | .tick =>
    match c.nextFire with
    | none => c
    | some t =>
      { c with now := t, fetchLog := c.fetchLog ++ [t],
               nextFire := some (t + POLL_INTERVAL_MS) }
  | .fetchComplete r =>
    let s' := fetchSessionStatusUpdate c.session r
    let c' := { c with session := s' }
    if depsChanged c.session s' then runPollEffect c' else c'

/-- `n` consecutive interval expirations. -/
def ticksN (c : PollClient) : Nat → PollClient
  | 0 => c
  | Nat.succ n => ticksN (stepP c .tick) n

/-! ## Helper lemmas -/

theorem runPollEffect_session (c : PollClient) :
    (runPollEffect c).session = c.session := by
  unfold runPollEffect
  repeat' split <;> try rfl

theorem runPollEffect_now (c : PollClient) :
    (runPollEffect c).now = c.now := by
  unfold runPollEffect
  repeat' split <;> try rfl

theorem runPollEffect_not_pollable (c : PollClient)
    (h : (match sessionField c.session "status" with
          | some (.str st) => pollableStatuses.contains st
          | _ => false) = false) :
    runPollEffect c = { c with nextFire := none } := by
  unfold runPollEffect
  unfold sessionField at h
  split
  · rfl
  · rename_i o ho
    rw [ho] at h
    split
    · split
      · rfl
      · rw [h]; simp
    · rfl

theorem stepP_tick_none (c : PollClient) (h : c.nextFire = none) :
    stepP c .tick = c := by
  simp [stepP, h]

theorem ticksN_flat (c : PollClient) (h : c.nextFire = none) (m : Nat) :
    ticksN c m = c := by
  induction m with
  | zero => rfl
  | succ m ih =>
    show ticksN (stepP c .tick) m = c
    rw [stepP_tick_none c h]
    exact ih

theorem ticksN_run (n : Nat) :
    ∀ (c : PollClient) (t : Nat), c.nextFire = some t →
      (ticksN c n).fetchLog
          = c.fetchLog ++ (List.range n).map (fun k => t + POLL_INTERVAL_MS * k) ∧
      (ticksN c n).nextFire = some (t + POLL_INTERVAL_MS * n) := by
  induction n with
  | zero => intro c t h; simp [ticksN, h]
  | succ n ih =>
    intro c t h
    have hstep : stepP c .tick
        = { c with now := t, fetchLog := c.fetchLog ++ [t],
                   nextFire := some (t + POLL_INTERVAL_MS) } := by
      simp [stepP, h]
    have := ih (stepP c .tick) (t + POLL_INTERVAL_MS) (by rw [hstep])
    obtain ⟨hlog, hfire⟩ := this
    constructor
    · show (ticksN (stepP c .tick) n).fetchLog = _
      rw [hlog, hstep]
      have hrange : (List.range (n + 1)).map (fun k => t + POLL_INTERVAL_MS * k)
          = t :: (List.range n).map
              (fun k => t + POLL_INTERVAL_MS + POLL_INTERVAL_MS * k) := by
        rw [List.range_succ_eq_map]
        simp only [List.map_cons, List.map_map, Nat.mul_zero, Nat.add_zero]
        congr 1
        apply List.map_congr_left
        intro k _
        simp only [Function.comp_apply, Nat.succ_eq_add_one]
        ring
      rw [hrange]
      simp
    · show (ticksN (stepP c .tick) n).nextFire = _
      rw [hfire]
      congr 1
      ring

theorem fetchUpdate_failed (prev : Option Obj) (r : FetchResult)
    (hr : isFailedFetch r = true) :
    fetchSessionStatusUpdate prev r = prev := by
  cases r with
  | networkError m => rfl
  | response ok body =>
    cases ok with
    | false => rfl
    | true =>
      cases body with
      | none => rfl
      | some data => simp [isFailedFetch] at hr

theorem fetchComplete_cancelled (sh : Shared) (mv : MountVars) (ws : Bool)
    (r : AnalysisFetchResult) (h : mv.isCancelled = true) :
    fetchAnalysisComplete sh mv ws r = (sh, mv) := by
  cases r with
  | networkError m => simp [fetchAnalysisComplete, analysisFailure, h]
  | response ok payload =>
    cases payload with
    | none => simp [fetchAnalysisComplete, analysisFailure, h]
    | some p =>
      cases ok with
      | false => simp [fetchAnalysisComplete, analysisFailure, h]
      | true => simp [fetchAnalysisComplete, analysisSuccess, h]

theorem clearRecorded_clears (sh : Shared) (mv : MountVars)
    (hall : ∀ q ∈ sh.active, mv.timeoutVar = some q.1) :
    clearRecorded sh mv = ({ sh with active := [] }, { mv with timeoutVar := none }) := by
  unfold clearRecorded
  split
  · rename_i id hid
    have : sh.active.filter (fun q => q.1 ≠ id) = [] := by
      rw [List.filter_eq_nil_iff]
      intro q hq
      have := hall q hq
      rw [hid] at this
      simp at this ⊢
      omega
    rw [this]
  · rename_i hnone
    have hempty : sh.active = [] := by
      cases hact : sh.active with
      | nil => rfl
      | cons q rest =>
        have := hall q (by rw [hact]; exact List.mem_cons_self q rest)
        rw [hnone] at this
        exact absurd this (by simp)
    rw [show ({ sh with active := [] } : Shared) = sh by
          cases sh; simp_all,
        show ({ mv with timeoutVar := none } : MountVars) = mv by
          cases mv; simp_all]

theorem analysisFailure_not_cancelled (sh : Shared) (mv : MountVars) (ws : Bool)
    (m : String) (h : mv.isCancelled = false) :
    analysisFailure sh mv ws m
      = ((if ws then { sh with error := some m, isLoading := false }
          else { sh with error := some m }), mv) := by
  simp [analysisFailure, h]

theorem fetchComplete_failure (sh : Shared) (mv : MountVars) (ws : Bool)
    (r : AnalysisFetchResult) (hr : isFailureResult r = true) :
    fetchAnalysisComplete sh mv ws r = analysisFailure sh mv ws (errMsgOf r) := by
  cases r with
  | networkError m => rfl
  | response ok payload =>
    cases payload with
    | none => cases ok <;> rfl
    | some p =>
      cases ok with
      | false => rfl
      | true => simp [isFailureResult] at hr

theorem analysisSuccess_not_cancelled (sh : Shared) (mv : MountVars) (ws : Bool)
    (p : BackendAnalysisResponse) (hcan : mv.isCancelled = false)
    (hall : ∀ q ∈ sh.active, mv.timeoutVar = some q.1) (hp : p.status = "pending") :
    analysisSuccess sh mv ws p
      = ((if ws then
            { sh with status := some (normalizeResponse p), error := none,
                      active := [(sh.nextId, sh.now + RETRY_DELAY_MS)],
                      nextId := sh.nextId + 1, isLoading := false }
          else
            { sh with status := some (normalizeResponse p), error := none,
                      active := [(sh.nextId, sh.now + RETRY_DELAY_MS)],
                      nextId := sh.nextId + 1 }),
         { mv with timeoutVar := some sh.nextId }) := by
  simp only [analysisSuccess, hcan, Bool.false_eq_true, if_false]
  rw [clearRecorded_clears
        { sh with status := some (normalizeResponse p), error := none } mv hall]
  have hps : (normalizeResponse p).status = "pending" := by
    simp [normalizeResponse, hp]
  rw [if_pos hps]
  cases ws <;> simp [scheduleRetry, hcan]

theorem invA_fetchComplete (sh : Shared) (mv : MountVars) (ws : Bool)
    (r : AnalysisFetchResult) (hInv : InvA sh mv) :
    InvA (fetchAnalysisComplete sh mv ws r).1 (fetchAnalysisComplete sh mv ws r).2 := by
  obtain ⟨hall, hlen, hcanc⟩ := hInv
  cases hcan : mv.isCancelled with
  | true =>
    rw [fetchComplete_cancelled sh mv ws r hcan]
    exact ⟨hall, hlen, hcanc⟩
  | false =>
    by_cases hfail : isFailureResult r = true
    · rw [fetchComplete_failure sh mv ws r hfail,
          analysisFailure_not_cancelled sh mv ws _ hcan]
      cases ws <;>
        exact ⟨hall, hlen, fun h => absurd (h ▸ hcan) (by simp)⟩
    · have hsucc : ∃ p, r = .response true (some p) := by
        cases r with
        | networkError m => simp [isFailureResult] at hfail
        | response ok payload =>
          cases ok with
          | false => simp [isFailureResult] at hfail
          | true =>
            cases payload with
            | none => simp [isFailureResult] at hfail
            | some p => exact ⟨p, rfl⟩
      obtain ⟨p, rfl⟩ := hsucc
      show InvA (analysisSuccess sh mv ws p).1 (analysisSuccess sh mv ws p).2
      simp only [analysisSuccess, hcan, Bool.false_eq_true, if_false]
      rw [clearRecorded_clears
            { sh with status := some (normalizeResponse p), error := none } mv hall]
      by_cases hp : (normalizeResponse p).status = "pending"
      · rw [if_pos hp]
        simp only [scheduleRetry]
        cases ws <;>
          refine ⟨?_, ?_, ?_⟩ <;> simp [hcan]
      · rw [if_neg hp]
        cases ws <;>
          refine ⟨?_, ?_, ?_⟩ <;> simp [hcan]

theorem stepA_timerFire_nil (sh : Shared) (mv : MountVars) (r : AnalysisFetchResult)
    (h : sh.active = []) : stepA (sh, mv) (.timerFire r) = (sh, mv) := by
  simp [stepA, h]

theorem stepA_timerFire_cons (sh : Shared) (mv : MountVars) (r : AnalysisFetchResult)
    (id t : Nat) (rest : List (Nat × Nat)) (h : sh.active = (id, t) :: rest) :
    stepA (sh, mv) (.timerFire r)
      = fetchAnalysisComplete
          { sh with active := sh.active.filter (fun q => q.1 ≠ id), now := t }
          mv false r := by
  simp only [stepA, h]

theorem invA_stepA (sh : Shared) (mv : MountVars) (e : AEvent) (hInv : InvA sh mv) :
    InvA (stepA (sh, mv) e).1 (stepA (sh, mv) e).2 := by
  cases e with
  | initialComplete r => exact invA_fetchComplete sh mv true r hInv
  | timerFire r =>
    obtain ⟨hall, hlen, hcanc⟩ := hInv
    cases hact : sh.active with
    | nil =>
      rw [stepA_timerFire_nil sh mv r hact]
      exact ⟨hall, hlen, hcanc⟩
    | cons q rest =>
      obtain ⟨id, t⟩ := q
      have hrest : rest = [] := by
        rw [hact] at hlen
        simpa using hlen
      subst hrest
      rw [stepA_timerFire_cons sh mv r id t [] hact]
      have hfilter : sh.active.filter (fun q => q.1 ≠ id) = [] := by
        rw [hact]; simp
      apply invA_fetchComplete
      refine ⟨?_, ?_, ?_⟩
      · intro q hq
        have hq' : q ∈ sh.active.filter (fun b => b.1 ≠ id) := hq
        rw [hfilter] at hq'
        cases hq'
      · have hle : (sh.active.filter (fun b => b.1 ≠ id)).length ≤ 1 := by
          rw [hfilter]; simp
        exact hle
      · intro _
        exact hfilter

theorem cleanupEffect_active (sh : Shared) (mv : MountVars) (hInv : InvA sh mv) :
    (cleanupEffect sh mv).1.active = [] := by
  obtain ⟨hall, _, _⟩ := hInv
  unfold cleanupEffect
  split
  · rename_i id hid
    show List.filter _ sh.active = []
    rw [List.filter_eq_nil_iff]
    intro q hq
    have := hall q hq
    rw [hid] at this
    simp at this ⊢
    omega
  · rename_i hnone
    show sh.active = []
    cases hact : sh.active with
    | nil => rfl
    | cons q rest =>
      have := hall q (by rw [hact]; exact List.mem_cons_self q rest)
      rw [hnone] at this
      exact absurd this (by simp)

/-! ## Claims -/

/-- Claim C1, counterexample.  The claim says a session with an unknown
status string keeps being polled on the fixed cadence.  On the code, the
polling effect returns early because `"mystery"` is not in
`pollableStatuses`: after the effect runs and arbitrarily many interval
ticks pass, not a single status fetch has been issued, and no interval is
scheduled. -/
theorem c1_unknown_status_counterexample :
    (ticksN (stepP
        { now := 0,
          session := some [("sessionId", JVal.str "s1"), ("status", JVal.str "mystery")],
          nextFire := none, fetchLog := [] } .mount) 4).fetchLog = [] ∧
    (stepP
        { now := 0,
          session := some [("sessionId", JVal.str "s1"), ("status", JVal.str "mystery")],
          nextFire := none, fetchLog := [] } .mount).nextFire = none := by
  constructor <;> rfl

/-- Claim C1 (corrected): for a session whose status string is not one of
the six known statuses, the client does not crash and displays the generic
"Updating session..." message, but it does not keep polling: the polling
effect treats the unknown status as non-pollable, schedules no interval
and issues no fetch, exactly as it does for terminal statuses. -/
theorem c1_unknown_status_amended (s : String) (c : PollClient) (o : Obj) (m : Nat)
    (h1 : s ≠ "room_created") (h2 : s ≠ "bot_starting") (h3 : s ≠ "bot_running")
    (h4 : s ≠ "bot_stopping") (h5 : s ≠ "bot_completed") (h6 : s ≠ "bot_error")
    (hc : c.session = some o) (hs : lookupKey o "status" = some (JVal.str s)) :
    statusDescription s = "Updating session..." ∧
    runPollEffect c = { c with nextFire := none } ∧
    (ticksN (runPollEffect c) m).fetchLog = c.fetchLog := by
  have hdesc : statusDescription s = "Updating session..." := by
    simp [statusDescription, SESSION_STATUS_LABELS, lookupKey,
      Ne.symm h1, Ne.symm h2, Ne.symm h3, Ne.symm h4, Ne.symm h5, Ne.symm h6]
  have heff : runPollEffect c = { c with nextFire := none } := by
    apply runPollEffect_not_pollable
    rw [show sessionField c.session "status" = some (JVal.str s) by
          rw [hc]; exact hs]
    simp [pollableStatuses, h2, h3, h4]
  refine ⟨hdesc, heff, ?_⟩
  rw [heff, ticksN_flat _ rfl m]

/-- Claim C1 witness: the amended theorem applied at the concrete unknown
status `"mystery"`. -/
theorem c1_unknown_status_amended_witness :
    statusDescription "mystery" = "Updating session..." ∧
    runPollEffect
        { now := 7,
          session := some [("sessionId", JVal.str "s1"), ("status", JVal.str "mystery")],
          nextFire := none, fetchLog := [] }
      = { now := 7,
          session := some [("sessionId", JVal.str "s1"), ("status", JVal.str "mystery")],
          nextFire := none, fetchLog := [] } ∧
    (ticksN (runPollEffect
        { now := 7,
          session := some [("sessionId", JVal.str "s1"), ("status", JVal.str "mystery")],
          nextFire := none, fetchLog := [] }) 3).fetchLog = [] := by
  have h := c1_unknown_status_amended "mystery"
      { now := 7,
        session := some [("sessionId", JVal.str "s1"), ("status", JVal.str "mystery")],
        nextFire := none, fetchLog := [] }
      [("sessionId", JVal.str "s1"), ("status", JVal.str "mystery")] 3
      (by decide) (by decide) (by decide) (by decide) (by decide) (by decide)
      rfl (by rfl)
  exact ⟨h.1, h.2.1, h.2.2⟩

/-- Claim C2, counterexample.  The claim says a malformed upstream JSON
body yields the fabricated `{"message": "Unexpected backend response"}`
body paired with HTTP 502.  On the code, the fabricated body is paired
with the upstream's own HTTP status: a reachable backend answering 200
with a non-JSON body is relayed as 200, not 502. -/
theorem c2_malformed_not_502_counterexample :
    interviewSessionsPOST (some []) (.response 200 none)
      = (200, [("message", JVal.str "Unexpected backend response")]) ∧
    (interviewSessionsPOST (some []) (.response 200 none)).1 ≠ 502 := by
  constructor
  · rfl
  · decide

/-- Claim C2 (corrected): every inbound control request that passes its
input guard receives a JSON body from each of the three route handlers;
the unreachable-backend case yields the unable-to-reach envelope with 502,
while a malformed upstream JSON body yields the fabricated
`{"message": "Unexpected backend response"}` body paired with the
upstream's own HTTP status (and a well-formed body is relayed verbatim
with the upstream status). -/
theorem c2_boundary_always_json_amended (b : Obj) (sid cid m : String) (st : Nat)
    (r : UpstreamResult) (hsid : sid ≠ "") (hcid : cid ≠ "") :
    interviewSessionsPOST (some b) r = relayResult r ∧
    startPOST sid r = relayResult r ∧
    analysisGET (some cid) r = relayResult r ∧
    relayResult (.unreachable m) = (502, unreachableEnvelope m) ∧
    relayResult (.response st none)
      = (st, [("message", JVal.str "Unexpected backend response")]) := by
  refine ⟨?_, ?_, ?_, rfl, rfl⟩
  · cases r <;> rfl
  · rw [startPOST, if_neg hsid]
    cases r <;> rfl
  · rw [analysisGET, if_neg (by simp [hcid])]
    cases r <;> rfl

/-- Claim C2 witness: the amended theorem applied at a concrete request to
an unreachable backend. -/
theorem c2_boundary_always_json_amended_witness :
    interviewSessionsPOST (some []) (.unreachable "ECONNREFUSED")
      = relayResult (.unreachable "ECONNREFUSED") ∧
    startPOST "s1" (.unreachable "ECONNREFUSED")
      = relayResult (.unreachable "ECONNREFUSED") ∧
    analysisGET (some "c1") (.unreachable "ECONNREFUSED")
      = relayResult (.unreachable "ECONNREFUSED") := by
  have h := c2_boundary_always_json_amended [] "s1" "c1" "ECONNREFUSED" 200
      (.unreachable "ECONNREFUSED") (by decide) (by decide)
  exact ⟨h.1, h.2.1, h.2.2.1⟩

/-- Claim C3: `normalizeResponse` maps the backend payload
`{conversation_id: "c1", status: "ready", updated_at: u, analysis: a}` to
the client view with `conversationId = "c1"`, `status = "ready"`,
`updatedAt = u` and the very same analysis object; it is a pure total
function on all backend-shaped inputs, copying each field (a null
analysis maps to null). -/
theorem c3_normalize_roundtrip (u : String) (a : Analysis)
    (d : BackendAnalysisResponse) :
    (normalizeResponse
        { conversation_id := "c1", status := "ready",
          updated_at := u, analysis := some a }).conversationId = "c1" ∧
    (normalizeResponse
        { conversation_id := "c1", status := "ready",
          updated_at := u, analysis := some a }).status = "ready" ∧
    (normalizeResponse
        { conversation_id := "c1", status := "ready",
          updated_at := u, analysis := some a }).updatedAt = u ∧
    (normalizeResponse
        { conversation_id := "c1", status := "ready",
          updated_at := u, analysis := some a }).analysis = some a ∧
    (normalizeResponse d).conversationId = d.conversation_id ∧
    (normalizeResponse d).status = d.status ∧
    (normalizeResponse d).updatedAt = d.updated_at ∧
    (normalizeResponse d).analysis = d.analysis := by
  exact ⟨rfl, rfl, rfl, rfl, rfl, rfl, rfl, rfl⟩

/-- Claim C4: in the Analysis Retrieval Reconciler, whenever a fetch
completes (in a live mount) with normalized status `pending`, exactly one
retry is scheduled to fire `RETRY_DELAY_MS = 5000` ms later — any
previously recorded timer having been cleared first, so that afterwards
the scheduled timer is the only active one — and the single-outstanding-
timer discipline `InvA` holds at mount start and is preserved by every
step of the mount's execution. -/
theorem c4_single_retry_timer (sh : Shared) (mv : MountVars) (e : AEvent)
    (ws : Bool) (p : BackendAnalysisResponse) (hInv : InvA sh mv) :
    InvA (stepA (sh, mv) e).1 (stepA (sh, mv) e).2 ∧
    (mv.isCancelled = false → p.status = "pending" →
      (fetchAnalysisComplete sh mv ws (.response true (some p))).1.active
          = [(sh.nextId, sh.now + RETRY_DELAY_MS)] ∧
      (fetchAnalysisComplete sh mv ws (.response true (some p))).2.timeoutVar
          = some sh.nextId) ∧
    (sh.active = [] → InvA (effectInit sh).1 (effectInit sh).2) := by
  refine ⟨invA_stepA sh mv e hInv, ?_, ?_⟩
  · intro hcan hp
    have hsucc : fetchAnalysisComplete sh mv ws (.response true (some p))
        = analysisSuccess sh mv ws p := by
      simp [fetchAnalysisComplete]
    rw [hsucc, analysisSuccess_not_cancelled sh mv ws p hcan hInv.1 hp]
    cases ws <;> exact ⟨rfl, rfl⟩
  · intro hempty
    refine ⟨?_, ?_, ?_⟩
    · intro q hq
      have hq' : q ∈ sh.active := hq
      rw [hempty] at hq'
      cases hq'
    · have : sh.active.length ≤ 1 := by rw [hempty]; simp
      exact this
    · intro _
      exact hempty

/-- Claim C4 witness: the mount's first fetch completes with a pending
payload from the empty initial state; one timer is scheduled 5000 ms out
and recorded, and the invariant is preserved. -/
theorem c4_single_retry_timer_witness :
    InvA { status := none, error := none, isLoading := true,
           active := [], nextId := 0, now := 0 }
         { isCancelled := false, timeoutVar := none } ∧
    (fetchAnalysisComplete
        { status := none, error := none, isLoading := true,
          active := [], nextId := 0, now := 0 }
        { isCancelled := false, timeoutVar := none } true
        (.response true (some
          { conversation_id := "c4", status := "pending",
            updated_at := "t0", analysis := none }))).1.active
      = [(0, 0 + RETRY_DELAY_MS)] := by
  have hInv : InvA
      { status := none, error := none, isLoading := true,
        active := [], nextId := 0, now := 0 }
      { isCancelled := false, timeoutVar := none } := by
    refine ⟨?_, ?_, ?_⟩ <;> simp
  have h := c4_single_retry_timer
      { status := none, error := none, isLoading := true,
        active := [], nextId := 0, now := 0 }
      { isCancelled := false, timeoutVar := none }
      (.initialComplete (.response true (some
        { conversation_id := "c4", status := "pending",
          updated_at := "t0", analysis := none })))
      true
      { conversation_id := "c4", status := "pending",
        updated_at := "t0", analysis := none }
      hInv
  exact ⟨hInv, (h.2.1 rfl rfl).1⟩

/-- Claim C5: in the Analysis Retrieval Reconciler, a fetch whose HTTP
call fails, returns a non-OK status, or has an unparseable body puts the
mount in an error state distinct from `pending`: the error message is set,
the previously held status and the timer state are untouched — no retry is
scheduled from the error branch — and the page renders the error card,
never the pending card. -/
theorem c5_error_state_no_retry (sh : Shared) (mv : MountVars) (ws : Bool)
    (r : AnalysisFetchResult) (cid ocid : String)
    (hr : isFailureResult r = true) (hcan : mv.isCancelled = false)
    (hload : ws = true ∨ sh.isLoading = false) :
    (fetchAnalysisComplete sh mv ws r).1.error = some (errMsgOf r) ∧
    (fetchAnalysisComplete sh mv ws r).1.status = sh.status ∧
    (fetchAnalysisComplete sh mv ws r).1.active = sh.active ∧
    (fetchAnalysisComplete sh mv ws r).2 = mv ∧
    renderContent (some cid) (fetchAnalysisComplete sh mv ws r).1
      = .errorCard (errMsgOf r) ∧
    renderContent (some cid) (fetchAnalysisComplete sh mv ws r).1
      ≠ .pendingCard ocid := by
  rw [fetchComplete_failure sh mv ws r hr,
      analysisFailure_not_cancelled sh mv ws _ hcan]
  have hnl : ∀ sh' : Shared, sh'.isLoading = false →
      sh'.error = some (errMsgOf r) →
      renderContent (some cid) sh' = .errorCard (errMsgOf r) := by
    intro sh' hl he
    simp [renderContent, hl, he]
  cases ws with
  | true =>
    refine ⟨rfl, rfl, rfl, rfl, ?_, ?_⟩
    · exact hnl { sh with error := some (errMsgOf r), isLoading := false } rfl rfl
    · show renderContent (some cid)
          { sh with error := some (errMsgOf r), isLoading := false }
          ≠ RenderView.pendingCard ocid
      rw [hnl { sh with error := some (errMsgOf r), isLoading := false } rfl rfl]
      intro h
      cases h
  | false =>
    have hl : sh.isLoading = false := by
      rcases hload with h | h
      · cases h
      · exact h
    refine ⟨rfl, rfl, rfl, rfl, ?_, ?_⟩
    · exact hnl { sh with error := some (errMsgOf r) } hl rfl
    · show renderContent (some cid)
          { sh with error := some (errMsgOf r) }
          ≠ RenderView.pendingCard ocid
      rw [hnl { sh with error := some (errMsgOf r) } hl rfl]
      intro h
      cases h

/-- Claim C5 witness: a network failure on the initial fetch lands in the
error card with no retry timer. -/
theorem c5_error_state_no_retry_witness :
    isFailureResult (.networkError "fetch failed") = true ∧
    renderContent (some "c5")
        (fetchAnalysisComplete
          { status := none, error := none, isLoading := true,
            active := [], nextId := 0, now := 0 }
          { isCancelled := false, timeoutVar := none } true
          (.networkError "fetch failed")).1
      = .errorCard "fetch failed" ∧
    (fetchAnalysisComplete
        { status := none, error := none, isLoading := true,
          active := [], nextId := 0, now := 0 }
        { isCancelled := false, timeoutVar := none } true
        (.networkError "fetch failed")).1.active = [] := by
  have h := c5_error_state_no_retry
      { status := none, error := none, isLoading := true,
        active := [], nextId := 0, now := 0 }
      { isCancelled := false, timeoutVar := none } true
      (.networkError "fetch failed") "c5" "c5"
      rfl rfl (Or.inl rfl)
  exact ⟨rfl, h.2.2.2.2.1, h.2.2.1⟩

theorem stepP_setSession (c : PollClient) (s : Option Obj) :
    stepP c (.setSession s)
      = if depsChanged c.session s then runPollEffect { c with session := s }
        else { c with session := s } := rfl

theorem stepP_fetchComplete (c : PollClient) (r : FetchResult) :
    stepP c (.fetchComplete r)
      = if depsChanged c.session (fetchSessionStatusUpdate c.session r)
        then runPollEffect { c with session := fetchSessionStatusUpdate c.session r }
        else { c with session := fetchSessionStatusUpdate c.session r } := rfl

theorem range_shift (t p n : Nat) :
    (List.range (n + 1)).map (fun k => t + p * k)
      = t :: (List.range n).map (fun k => t + p + p * k) := by
  rw [List.range_succ_eq_map]
  simp only [List.map_cons, List.map_map, Nat.mul_zero, Nat.add_zero]
  congr 1
  apply List.map_congr_left
  intro k _
  simp only [Function.comp_apply, Nat.succ_eq_add_one]
  ring

theorem runPollEffect_pollable (c : PollClient) (o : Obj) (sid st : String)
    (hc : c.session = some o)
    (hid : lookupKey o "sessionId" = some (JVal.str sid)) (hsid : sid ≠ "")
    (hs : lookupKey o "status" = some (JVal.str st))
    (hpoll : pollableStatuses.contains st = true) :
    runPollEffect c
      = { c with fetchLog := c.fetchLog ++ [c.now],
                 nextFire := some (c.now + POLL_INTERVAL_MS) } := by
  unfold runPollEffect
  rw [hc]
  simp only [hid, hs, hpoll]
  rw [if_neg hsid]
  simp

/-- Claim C6: entering a pollable status (`bot_starting`, `bot_running`,
`bot_stopping`) issues a status fetch immediately and then one fetch every
`POLL_INTERVAL_MS = 4000` ms — after `n` interval ticks the fetch log is
exactly `t0, t0+4000, …, t0+4000·n` — and once a successful fetch merges a
terminal status (`bot_completed` or `bot_error`) into a session that was
in a pollable status, the effect re-runs, clears the interval, and the
fetch count stays flat under any further time advances. -/
theorem c6_cadence_and_terminal_stop (sid st cst : String) (t0 n m : Nat)
    (c : PollClient) (data : Obj)
    (hst : st = "bot_starting" ∨ st = "bot_running" ∨ st = "bot_stopping")
    (hsid : sid ≠ "")
    (hc : sessionField c.session "status" = some (JVal.str cst))
    (hcpoll : cst = "bot_starting" ∨ cst = "bot_running" ∨ cst = "bot_stopping")
    (hterm : sessionField
        (fetchSessionStatusUpdate c.session (.response true (some data))) "status"
          = some (JVal.str "bot_completed") ∨
      sessionField
        (fetchSessionStatusUpdate c.session (.response true (some data))) "status"
          = some (JVal.str "bot_error")) :
    (stepP { now := t0, session := none, nextFire := none, fetchLog := [] }
        (.setSession (some [("sessionId", JVal.str sid), ("status", JVal.str st)]))).fetchLog
      = [t0] ∧
    (stepP { now := t0, session := none, nextFire := none, fetchLog := [] }
        (.setSession (some [("sessionId", JVal.str sid), ("status", JVal.str st)]))).nextFire
      = some (t0 + POLL_INTERVAL_MS) ∧
    (ticksN (stepP { now := t0, session := none, nextFire := none, fetchLog := [] }
        (.setSession (some [("sessionId", JVal.str sid), ("status", JVal.str st)]))) n).fetchLog
      = (List.range (n + 1)).map (fun k => t0 + POLL_INTERVAL_MS * k) ∧
    (stepP c (.fetchComplete (.response true (some data)))).nextFire = none ∧
    (stepP c (.fetchComplete (.response true (some data)))).fetchLog = c.fetchLog ∧
    (ticksN (stepP c (.fetchComplete (.response true (some data)))) m).fetchLog
      = c.fetchLog := by
  have hd : depsChanged none
      (some [("sessionId", JVal.str sid), ("status", JVal.str st)]) := by
    exact Or.inl (by simp [sessionField, lookupKey])
  have hstep : stepP { now := t0, session := none, nextFire := none, fetchLog := [] }
      (.setSession (some [("sessionId", JVal.str sid), ("status", JVal.str st)]))
      = { now := t0,
          session := some [("sessionId", JVal.str sid), ("status", JVal.str st)],
          nextFire := some (t0 + POLL_INTERVAL_MS), fetchLog := [t0] } := by
    rw [stepP_setSession, if_pos hd,
        runPollEffect_pollable _
          [("sessionId", JVal.str sid), ("status", JVal.str st)] sid st rfl
          (by simp [lookupKey]) hsid (by simp [lookupKey])
          (by rcases hst with h | h | h <;> rw [h] <;> decide)]
    rfl
  have hterm' : ∀ cc : PollClient,
      cc.session = fetchSessionStatusUpdate c.session (.response true (some data)) →
      runPollEffect cc = { cc with nextFire := none } := by
    intro cc hcc
    apply runPollEffect_not_pollable
    rw [hcc]
    rcases hterm with h | h <;> rw [h] <;> decide
  have hne : depsChanged c.session
      (fetchSessionStatusUpdate c.session (.response true (some data))) := by
    refine Or.inr ?_
    rw [hc]
    rcases hcpoll with h | h | h <;> rcases hterm with h' | h' <;>
      rw [h, h'] <;> simp
  have hstep2 : stepP c (.fetchComplete (.response true (some data)))
      = { c with
            session := fetchSessionStatusUpdate c.session (.response true (some data)),
            nextFire := none } := by
    rw [stepP_fetchComplete, if_pos hne,
        hterm' { c with
          session := fetchSessionStatusUpdate c.session (.response true (some data)) }
        rfl]
  refine ⟨by rw [hstep], by rw [hstep], ?_, by rw [hstep2], by rw [hstep2], ?_⟩
  · have hrun := ticksN_run n
        { now := t0,
          session := some [("sessionId", JVal.str sid), ("status", JVal.str st)],
          nextFire := some (t0 + POLL_INTERVAL_MS), fetchLog := [t0] }
        (t0 + POLL_INTERVAL_MS) rfl
    rw [hstep, hrun.1, range_shift]
    rfl
  · rw [hstep2, ticksN_flat _ rfl m]

/-- Claim C6 witness: a session entering `bot_running` at time 0 fetches
at 0, 4000 and 8000; a fetch merging `bot_completed` clears the interval
and further ticks add no fetch. -/
theorem c6_cadence_and_terminal_stop_witness :
    (ticksN (stepP { now := 0, session := none, nextFire := none, fetchLog := [] }
        (.setSession (some [("sessionId", JVal.str "s1"), ("status", JVal.str "bot_running")]))) 2).fetchLog
      = [0, 4000, 8000] ∧
    (stepP
        { now := 8000,
          session := some [("sessionId", JVal.str "s1"), ("status", JVal.str "bot_running")],
          nextFire := some 12000, fetchLog := [0, 4000, 8000] }
        (.fetchComplete (.response true (some [("status", JVal.str "bot_completed")])))).nextFire
      = none ∧
    (ticksN (stepP
        { now := 8000,
          session := some [("sessionId", JVal.str "s1"), ("status", JVal.str "bot_running")],
          nextFire := some 12000, fetchLog := [0, 4000, 8000] }
        (.fetchComplete (.response true (some [("status", JVal.str "bot_completed")])))) 5).fetchLog
      = [0, 4000, 8000] := by
  have h := c6_cadence_and_terminal_stop "s1" "bot_running" "bot_running" 0 2 5
      { now := 8000,
        session := some [("sessionId", JVal.str "s1"), ("status", JVal.str "bot_running")],
        nextFire := some 12000, fetchLog := [0, 4000, 8000] }
      [("status", JVal.str "bot_completed")]
      (Or.inr (Or.inl rfl)) (by decide) (by rfl) (Or.inr (Or.inl rfl))
      (Or.inl (by rfl))
  refine ⟨?_, h.2.2.2.1, h.2.2.2.2.2⟩
  rw [h.2.2.1]
  rfl

/-- Claim C7: a status fetch that fails — network error, non-OK HTTP
status, or unparseable body — is swallowed by `fetchSessionStatus`: the
client state is completely unchanged (so the loop never raises and the
interval keeps its cadence: the next fire time and the fetch log are
untouched). -/
theorem c7_failed_fetch_swallowed (c : PollClient) (r : FetchResult)
    (hr : isFailedFetch r = true) :
    stepP c (.fetchComplete r) = c ∧
    (stepP c (.fetchComplete r)).nextFire = c.nextFire ∧
    (stepP c (.fetchComplete r)).fetchLog = c.fetchLog := by
  have hupd := fetchUpdate_failed c.session r hr
  have hnd : ¬ depsChanged c.session c.session := by
    intro h
    rcases h with h | h <;> exact h rfl
  have h : stepP c (.fetchComplete r) = c := by
    rw [stepP_fetchComplete, hupd, if_neg hnd]
  exact ⟨h, by rw [h], by rw [h]⟩

/-- Claim C7 witness: a network error leaves a polling client unchanged. -/
theorem c7_failed_fetch_swallowed_witness :
    isFailedFetch (.networkError "offline") = true ∧
    stepP
        { now := 4000,
          session := some [("sessionId", JVal.str "s1"), ("status", JVal.str "bot_running")],
          nextFire := some 8000, fetchLog := [0, 4000] }
        (.fetchComplete (.networkError "offline"))
      = { now := 4000,
          session := some [("sessionId", JVal.str "s1"), ("status", JVal.str "bot_running")],
          nextFire := some 8000, fetchLog := [0, 4000] } := by
  exact ⟨rfl,
    (c7_failed_fetch_swallowed
      { now := 4000,
        session := some [("sessionId", JVal.str "s1"), ("status", JVal.str "bot_running")],
        nextFire := some 8000, fetchLog := [0, 4000] }
      (.networkError "offline") rfl).1⟩

/-- Claim C8: a successful status fetch merges the response into the held
session view by `{...prev, ...data}`: the new view is `spreadObj prev
data`, on which every field present in the response reads back with the
response's value, and every field absent from the response reads back with
the previous local value (no field is deleted). -/
theorem c8_merge_overwrites_preserves (c : PollClient) (p data : Obj)
    (k : String) (v : JVal) (hc : c.session = some p) :
    (stepP c (.fetchComplete (.response true (some data)))).session
      = some (spreadObj p data) ∧
    (lookupKey data k = some v → lookupKey (spreadObj p data) k = some v) ∧
    (lookupKey data k = none → lookupKey (spreadObj p data) k = lookupKey p k) := by
  have hupd : fetchSessionStatusUpdate c.session (.response true (some data))
      = some (spreadObj p data) := by
    rw [hc]
    rfl
  refine ⟨?_, ?_, ?_⟩
  · rw [stepP_fetchComplete, hupd]
    by_cases hd : depsChanged c.session (some (spreadObj p data))
    · rw [if_pos hd, runPollEffect_session]
    · rw [if_neg hd]
  · intro h
    rw [spreadObj, lookupKey_append, h]
    rfl
  · intro h
    rw [spreadObj, lookupKey_append, h]
    rfl

/-- Claim C8 witness: merging a response that carries `status` and
`conversationId` into a view that also holds `roomUrl` overwrites the
status and keeps the room URL. -/
theorem c8_merge_overwrites_preserves_witness :
    (stepP
        { now := 0,
          session := some [("sessionId", JVal.str "s1"),
                           ("status", JVal.str "bot_running"),
                           ("roomUrl", JVal.str "https://x.daily.co/r1")],
          nextFire := some 4000, fetchLog := [0] }
        (.fetchComplete (.response true
          (some [("status", JVal.str "bot_completed"),
                 ("conversationId", JVal.str "conv-42")])))).session
      = some (spreadObj
          [("sessionId", JVal.str "s1"),
           ("status", JVal.str "bot_running"),
           ("roomUrl", JVal.str "https://x.daily.co/r1")]
          [("status", JVal.str "bot_completed"),
           ("conversationId", JVal.str "conv-42")]) ∧
    lookupKey (spreadObj
          [("sessionId", JVal.str "s1"),
           ("status", JVal.str "bot_running"),
           ("roomUrl", JVal.str "https://x.daily.co/r1")]
          [("status", JVal.str "bot_completed"),
           ("conversationId", JVal.str "conv-42")]) "status"
      = some (JVal.str "bot_completed") ∧
    lookupKey (spreadObj
          [("sessionId", JVal.str "s1"),
           ("status", JVal.str "bot_running"),
           ("roomUrl", JVal.str "https://x.daily.co/r1")]
          [("status", JVal.str "bot_completed"),
           ("conversationId", JVal.str "conv-42")]) "roomUrl"
      = some (JVal.str "https://x.daily.co/r1") := by
  have h := c8_merge_overwrites_preserves
      { now := 0,
        session := some [("sessionId", JVal.str "s1"),
                         ("status", JVal.str "bot_running"),
                         ("roomUrl", JVal.str "https://x.daily.co/r1")],
        nextFire := some 4000, fetchLog := [0] }
      [("sessionId", JVal.str "s1"),
       ("status", JVal.str "bot_running"),
       ("roomUrl", JVal.str "https://x.daily.co/r1")]
      [("status", JVal.str "bot_completed"),
       ("conversationId", JVal.str "conv-42")]
      "status" (JVal.str "bot_completed") rfl
  exact ⟨h.1, h.2.1 rfl, by rfl⟩

/-- Claim C9: on the backend sequence pending, pending, ready, the mounted
reconciler surfaces exactly one `pending` render state followed by one
`ready` report (consecutive duplicates collapsed), and after `ready` no
timer remains active, so no further fetch can fire and the rendered state
never reverts to `pending`. -/
theorem c9_pending_then_ready_monotone :
    dedupConsec
        [renderContent (some "c9")
          (stepA (effectInit
              { status := none, error := none, isLoading := false,
                active := [], nextId := 0, now := 0 })
            (.initialComplete (.response true (some (pendingPayload "t1"))))).1,
         renderContent (some "c9")
          (stepA (stepA (effectInit
              { status := none, error := none, isLoading := false,
                active := [], nextId := 0, now := 0 })
            (.initialComplete (.response true (some (pendingPayload "t1")))))
            (.timerFire (.response true (some (pendingPayload "t2"))))).1,
         renderContent (some "c9")
          (stepA (stepA (stepA (effectInit
              { status := none, error := none, isLoading := false,
                active := [], nextId := 0, now := 0 })
            (.initialComplete (.response true (some (pendingPayload "t1")))))
            (.timerFire (.response true (some (pendingPayload "t2")))))
            (.timerFire (.response true (some readyPayload)))).1]
      = [.pendingCard "c9", .report sampleAnalysis] ∧
    (stepA (stepA (stepA (effectInit
        { status := none, error := none, isLoading := false,
          active := [], nextId := 0, now := 0 })
      (.initialComplete (.response true (some (pendingPayload "t1")))))
      (.timerFire (.response true (some (pendingPayload "t2")))))
      (.timerFire (.response true (some readyPayload)))).1.active = [] ∧
    (∀ r : AnalysisFetchResult,
      stepA (stepA (stepA (stepA (effectInit
          { status := none, error := none, isLoading := false,
            active := [], nextId := 0, now := 0 })
        (.initialComplete (.response true (some (pendingPayload "t1")))))
        (.timerFire (.response true (some (pendingPayload "t2")))))
        (.timerFire (.response true (some readyPayload)))) (.timerFire r)
        = stepA (stepA (stepA (effectInit
            { status := none, error := none, isLoading := false,
              active := [], nextId := 0, now := 0 })
          (.initialComplete (.response true (some (pendingPayload "t1")))))
          (.timerFire (.response true (some (pendingPayload "t2")))))
          (.timerFire (.response true (some readyPayload)))) := by
  refine ⟨?_, ?_, ?_⟩
  · rfl
  · rfl
  · intro r
    rfl

/-- Claim C10: tearing the mount down (unmount or a new conversationId)
cancels the recorded retry timer — no active timer survives the cleanup —
marks the closure cancelled so that any still-in-flight fetch of the old
mount leaves all visible state untouched and no cleared timer can fire,
and the next effect run starts with `status` and `error` reset to
uninitialized before its first fetch begins. -/
theorem c10_teardown_cancels_and_resets (sh : Shared) (mv : MountVars)
    (ws : Bool) (r : AnalysisFetchResult) (sh2 : Shared) (hInv : InvA sh mv) :
    (cleanupEffect sh mv).1.active = [] ∧
    (cleanupEffect sh mv).2.isCancelled = true ∧
    fetchAnalysisComplete (cleanupEffect sh mv).1 (cleanupEffect sh mv).2 ws r
      = ((cleanupEffect sh mv).1, (cleanupEffect sh mv).2) ∧
    stepA (cleanupEffect sh mv) (.timerFire r) = cleanupEffect sh mv ∧
    (effectInit sh2).1.status = none ∧
    (effectInit sh2).1.error = none ∧
    (effectInit sh2).2.isCancelled = false ∧
    (effectInit sh2).2.timeoutVar = none := by
  have hact := cleanupEffect_active sh mv hInv
  have hcanc : (cleanupEffect sh mv).2.isCancelled = true := rfl
  refine ⟨hact, hcanc, ?_, ?_, rfl, rfl, rfl, rfl⟩
  · exact fetchComplete_cancelled _ _ ws r hcanc
  · exact stepA_timerFire_nil (cleanupEffect sh mv).1 (cleanupEffect sh mv).2 r hact

/-- Claim C10 witness: a mount holding one outstanding retry timer is torn
down; the timer is cleared, the cancelled mount's in-flight fetch is a
no-op, and a fresh effect starts from reset state. -/
theorem c10_teardown_cancels_and_resets_witness :
    InvA { status := none, error := none, isLoading := false,
           active := [(0, 5000)], nextId := 1, now := 0 }
         { isCancelled := false, timeoutVar := some 0 } ∧
    (cleanupEffect
        { status := none, error := none, isLoading := false,
          active := [(0, 5000)], nextId := 1, now := 0 }
        { isCancelled := false, timeoutVar := some 0 }).1.active = [] ∧
    fetchAnalysisComplete
        (cleanupEffect
          { status := none, error := none, isLoading := false,
            active := [(0, 5000)], nextId := 1, now := 0 }
          { isCancelled := false, timeoutVar := some 0 }).1
        (cleanupEffect
          { status := none, error := none, isLoading := false,
            active := [(0, 5000)], nextId := 1, now := 0 }
          { isCancelled := false, timeoutVar := some 0 }).2 false
        (.response true (some (pendingPayload "late")))
      = ((cleanupEffect
          { status := none, error := none, isLoading := false,
            active := [(0, 5000)], nextId := 1, now := 0 }
          { isCancelled := false, timeoutVar := some 0 }).1,
         (cleanupEffect
          { status := none, error := none, isLoading := false,
            active := [(0, 5000)], nextId := 1, now := 0 }
          { isCancelled := false, timeoutVar := some 0 }).2) := by
  have hInv : InvA
      { status := none, error := none, isLoading := false,
        active := [(0, 5000)], nextId := 1, now := 0 }
      { isCancelled := false, timeoutVar := some 0 } := by
    refine ⟨?_, ?_, ?_⟩ <;> simp
  have h := c10_teardown_cancels_and_resets
      { status := none, error := none, isLoading := false,
        active := [(0, 5000)], nextId := 1, now := 0 }
      { isCancelled := false, timeoutVar := some 0 }
      false (.response true (some (pendingPayload "late")))
      { status := none, error := none, isLoading := false,
        active := [], nextId := 0, now := 0 }
      hInv
  exact ⟨hInv, h.1, h.2.2.1⟩
